import Mathlib

set_option linter.unusedVariables false

/-!
Verification development for the photo-gallery application
(`chitradrishya.py` and `album_category.py`).

The Python sources are shallowly embedded: blobs are `List Nat` (byte
values), database tables are Lean lists of row structures, and every
fallible operation returns its result explicitly.  The imaging library
(PIL) is external to the repository; it is modelled abstractly by a
toy codec that records only what the claims depend on: whether a blob
decodes, and that every edit re-encodes through the PNG encoder.
-/

namespace Gallery

/-! ## Byte blobs and the model of the external imaging library -/

/-- A binary blob: a list of byte values. -/
abbrev Blob := List Nat

/-- JPEG files begin with the SOI marker bytes `FF D8 FF`. -/
def jpegSig : Blob := [255, 216, 255]

/-- PNG files begin with the eight-byte PNG signature. -/
def pngSig : Blob := [137, 80, 78, 71, 13, 10, 26, 10]

/-- Model of a decoded in-memory image of the external imaging library.
`mode` is the pixel mode string (for example `RGB` or `L`); `payload`
is the abstract pixel content carried through transformations. -/
structure PILImage where
  mode : String
  payload : Blob
deriving Repr, DecidableEq

/-- Model of `PIL.Image.open` on a byte blob: decoding succeeds exactly
when the blob carries a recognised image signature (JPEG or PNG in this
model); otherwise the library raises, modelled as `none`. -/
def pilOpen (b : Blob) : Option PILImage :=
  if jpegSig.isPrefixOf b || pngSig.isPrefixOf b then
    some { mode := "native", payload := b }
  else
    none

/-- Model of `img.convert(mode)` of the external library. -/
def pilConvert (mode : String) (img : PILImage) : PILImage :=
  { img with mode := mode }

/-- Model of the PNG encoder (`img.save(output, format="PNG")`): the
emitted bytes always begin with the PNG signature. -/
def encodePNG (img : PILImage) : Blob :=
  pngSig ++ img.payload

/-- Abstract model of `img.crop(box)` of the external library; the
claims never inspect the resulting pixels. -/
def pilCrop (box : Int × Int × Int × Int) (img : PILImage) : PILImage :=
  { img with payload := img.payload }

/-- Abstract model of `img.rotate(degrees, expand=True)`. -/
def pilRotate (degrees : Int) (img : PILImage) : PILImage :=
  { img with payload := img.payload }

/-- Abstract model of `ImageEnhance.Brightness(img).enhance(factor)`. -/
def pilBrightness (factor : Rat) (img : PILImage) : PILImage :=
  { img with payload := img.payload }

/-- Abstract model of `ImageEnhance.Contrast(img).enhance(factor)`. -/
def pilContrast (factor : Rat) (img : PILImage) : PILImage :=
  { img with payload := img.payload }

/-- Abstract model of `ImageEnhance.Sharpness(img).enhance(factor)`. -/
def pilSharpness (factor : Rat) (img : PILImage) : PILImage :=
  { img with payload := img.payload }

/-- Abstract model of `img.thumbnail(size)` of the external library. -/
def pilThumbnail (size : Nat × Nat) (img : PILImage) : PILImage :=
  { img with payload := img.payload }

/-! ## Lexicographic string comparison

SQLite's default `BINARY` collation compares `TEXT` values bytewise;
on the ASCII ISO timestamps stored by the code this is the
lexicographic order on characters, computed here explicitly so that it
evaluates on concrete inputs. -/

/-- Lexicographic strict order on character lists by code point. -/
def charListLt : List Char → List Char → Bool
  | _, [] => false
  | [], _ :: _ => true
  | a :: as, b :: bs =>
      if a.toNat < b.toNat then true
      else if b.toNat < a.toNat then false
      else charListLt as bs

/-- Lexicographic strict order on strings (SQLite `BINARY` collation on
ASCII text). -/
def strLt (a b : String) : Bool :=
  charListLt a.data b.data

/-! ## `validate_folder_name` (chitradrishya.py lines 37-40)

The Python code evaluates `bool(re.match(r"^[a-z0-9_]{3,20}$", folder))`.
Under Python `re` semantics (without `re.MULTILINE`), `$` matches at the
end of the string *or just before a newline that is the last character*,
so the regex also accepts a valid core followed by one trailing `\n`. -/

/-- One character of the class `[a-z0-9_]`. -/
def isSlugChar (c : Char) : Bool :=
  (decide ('a' ≤ c) && decide (c ≤ 'z')) ||
  (decide ('0' ≤ c) && decide (c ≤ '9')) ||
  (c == '_')

/-- Pattern `[a-z0-9_]{3,20}` consumed in full: 3 to 20 characters of the class. -/
def slugCore (cs : List Char) : Bool :=
  decide (3 ≤ cs.length) && decide (cs.length ≤ 20) && cs.all isSlugChar

/-- Evaluation of `bool(re.match(r"^[a-z0-9_]{3,20}$", s))` under Python semantics:
either the whole string is a valid core, or the string is a valid core
followed by a single trailing newline (the `$` anchor matches before a
final `\n`). -/
def re_match_slug (s : String) : Bool :=
  slugCore s.data ||
  (match s.data.getLast? with
   | some c => c == '\n' && slugCore s.data.dropLast
   | none => false)

/-- Function `validate_folder_name` from chitradrishya.py lines 37-40. -/
def validate_folder_name (folder : String) : Bool :=
  re_match_slug folder

/-! ## Startup configuration (chitradrishya.py lines 22-26)

Module level, the script binds `ADMIN_PASSWORD`, `DB_PATH` and
`MAX_FILE_SIZE_MB`.  No statement anywhere in `chitradrishya.py` binds a
global named `FORCE_DB_RESET`, although `init_db` reads it at line 95. -/

/-- Model of `os.getenv` over an environment. -/
abbrev Env := String → Option String

/-- Binding `ADMIN_PASSWORD = os.getenv("ADMIN_PASSWORD", "admin123")`
(chitradrishya.py line 24). -/
def ADMIN_PASSWORD (env : Env) : String :=
  (env "ADMIN_PASSWORD").getD "admin123"

/-- Binding `DB_PATH = "gallery.db"` (chitradrishya.py line 25). -/
def DB_PATH : String := "gallery.db"

/-- Binding `MAX_FILE_SIZE_MB = 5` (chitradrishya.py line 26). -/
def MAX_FILE_SIZE_MB : Nat := 5

/-- The value of the module-level global `FORCE_DB_RESET` when `init_db`
runs: `none`, because no assignment to that name exists anywhere in
`chitradrishya.py` (the module only binds `ADMIN_PASSWORD`, `DB_PATH`,
`MAX_FILE_SIZE_MB`, the imports, and the function/class definitions).
Evaluating an unbound global in Python raises `NameError`. -/
def FORCE_DB_RESET_global : Option Bool := none

/-! ## Database state

Each table of `gallery.db` is a list of rows in rowid (insertion)
order.  `next*Id` model the `INTEGER PRIMARY KEY AUTOINCREMENT`
counters, which start at 1. -/

/-- A row of the `folders` table (chitradrishya.py lines 109-118). -/
structure FolderRow where
  id : Nat
  folder : String
  name : String
  age : Nat
  profession : String
  category : String
deriving Repr, DecidableEq

/-- A row of the `images` table (chitradrishya.py lines 126-135). -/
structure ImageRow where
  id : Nat
  name : String
  folder : String
  image_data : Blob
  download_allowed : Bool
deriving Repr, DecidableEq

/-- A row of the `surveys` table (chitradrishya.py lines 143-152). -/
structure SurveyRow where
  id : Nat
  folder : String
  rating : Int
  feedback : String
  timestamp : String
deriving Repr, DecidableEq

/-- A row of the `image_history` table (chitradrishya.py lines 160-169). -/
structure HistoryRow where
  id : Nat
  image_id : Nat
  folder : String
  image_data : Blob
  timestamp : String
deriving Repr, DecidableEq

/-- The state of the SQLite database `gallery.db`. -/
structure DBState where
  folders : List FolderRow
  images : List ImageRow
  surveys : List SurveyRow
  history : List HistoryRow
  nextFolderId : Nat := 1
  nextImageId : Nat := 1
  nextSurveyId : Nat := 1
  nextHistoryId : Nat := 1
deriving Repr, DecidableEq

/-- The freshly created database: empty tables. -/
def emptyDB : DBState :=
  { folders := [], images := [], surveys := [], history := [] }

namespace DatabaseManager

/-- One candidate record of the `default_folders` list of `init_db`
(chitradrishya.py lines 176-184); the `name` field comes from the
external `names` library and is passed in. -/
structure DefaultFolder where
  name : String
  age : Nat
  profession : String
  category : String
  folder : String
deriving Repr, DecidableEq

/-- The seven default folders of chitradrishya.py lines 176-184,
parameterised by the seven random names. -/
def default_folders (ns : Fin 7 → String) : List DefaultFolder :=
  [ { name := ns 0, age := 26, profession := "Graphic Designer", category := "Artists", folder := "artist1" },
    { name := ns 1, age := 29, profession := "Painter", category := "Artists", folder := "artist2" },
    { name := ns 2, age := 30, profession := "Literature Teacher", category := "Teachers", folder := "teacher1" },
    { name := ns 3, age := 27, profession := "Musician", category := "Artists", folder := "artist3" },
    { name := ns 4, age := 47, profession := "Data Scientist", category := "Engineers", folder := "engineer1" },
    { name := ns 5, age := 25, profession := "Software Developer", category := "Engineers", folder := "engineer2" },
    { name := ns 6, age := 34, profession := "History Teacher", category := "Teachers", folder := "teacher2" } ]

/-- One iteration of the default-folder loop of `init_db`
(chitradrishya.py lines 185-193): validate the slug, then insert only
when `SELECT COUNT(*) FROM folders WHERE folder = ?` returns 0. -/
def insertDefault (db : DBState) (fd : DefaultFolder) : DBState :=
  if validate_folder_name fd.folder then
    if db.folders.any (fun r => r.folder == fd.folder) then db
    else
      { db with
        folders := db.folders ++
          [ { id := db.nextFolderId, folder := fd.folder, name := fd.name,
              age := fd.age, profession := fd.profession, category := fd.category } ],
        nextFolderId := db.nextFolderId + 1 }
  else db

/-- The body of `init_db` from the `conn = DatabaseManager.connect()`
line on (chitradrishya.py lines 104-195): `CREATE TABLE IF NOT EXISTS`
for the four tables (a no-op on the state model, which always carries
the four tables) followed by the guarded insertion of the default
folders. -/
def init_db_core (ns : Fin 7 → String) (db : DBState) : DBState :=
  (default_folders ns).foldl insertDefault db

/-- Function `init_db` (chitradrishya.py lines 84-201) as run at startup.
`dbFileExists` models `os.path.exists(DB_PATH)`.  Line 95 evaluates the
global `FORCE_DB_RESET`; since the module never binds that name
(`FORCE_DB_RESET_global = none`), Python raises `NameError` there, and
the surrounding handler at lines 565-570 only catches
`sqlite3.OperationalError`, so the error propagates. -/
def init_db (env : Env) (dbFileExists : Bool) (ns : Fin 7 → String)
    (db : DBState) : Except String DBState :=
  match FORCE_DB_RESET_global with
  | none => Except.error "NameError: name FORCE_DB_RESET is not defined"
  | some flag =>
      let db2 := if flag && dbFileExists then emptyDB else db
      Except.ok (init_db_core ns db2)

/-- Method `DatabaseManager.add_folder` (chitradrishya.py lines 236-261).
Returns the Python return value and the database state afterwards.
An insert whose slug already exists violates the `UNIQUE` constraint on
`folders.folder`, raising `sqlite3.IntegrityError`, which the code
catches and turns into `False` with nothing committed. -/
def add_folder (db : DBState) (folder name : String) (age : Nat)
    (profession category : String) : Bool × DBState :=
  if !validate_folder_name folder then
    (false, db)
  else if db.folders.any (fun r => r.folder == folder) then
    (false, db)
  else
    (true,
      { db with
        folders := db.folders ++
          [ { id := db.nextFolderId, folder := folder, name := name,
              age := age, profession := profession, category := category } ],
        nextFolderId := db.nextFolderId + 1 })

/-- Method `DatabaseManager.update_folder_name` (chitradrishya.py lines
219-233): `UPDATE folders SET name = ? WHERE folder = ?`. -/
def update_folder_name (db : DBState) (folder new_name : String) :
    Bool × DBState :=
  (true,
    { db with
      folders := db.folders.map (fun r =>
        if r.folder == folder then { r with name := new_name } else r) })

/-- One iteration of the upload loop of `load_images_to_db`
(chitradrishya.py lines 269-275): the row is inserted only when
`SELECT COUNT(*) FROM images WHERE folder = ? AND name = ?` returns 0.
`u` pairs the random filename `f"{uuid.uuid4()}.png"` generated for the
blob with the blob itself. -/
def insertUpload (folder : String) (download_allowed : Bool)
    (d : DBState) (u : String × Blob) : DBState :=
  if d.images.any (fun r => r.folder == folder && r.name == u.1) then d
  else
    { d with
      images := d.images ++
        [ { id := d.nextImageId, name := u.1, folder := folder,
            image_data := u.2, download_allowed := download_allowed } ],
      nextImageId := d.nextImageId + 1 }

/-- Method `DatabaseManager.load_images_to_db` (chitradrishya.py lines
263-282): the upload loop over the edited blobs. -/
def load_images_to_db (db : DBState) (uploads : List (String × Blob))
    (folder : String) (download_allowed : Bool) : DBState :=
  uploads.foldl (insertUpload folder download_allowed) db

/-- Method `DatabaseManager.swap_image` (chitradrishya.py lines 285-301):
`UPDATE images SET image_data = ? WHERE folder = ? AND name = ?`. -/
def swap_image (db : DBState) (folder old_image_name : String)
    (new_image_data : Blob) : Bool × DBState :=
  (true,
    { db with
      images := db.images.map (fun r =>
        if r.folder == folder && r.name == old_image_name then
          { r with image_data := new_image_data }
        else r) })

/-- Method `DatabaseManager.save_image_history` (chitradrishya.py lines
304-317); the timestamp `datetime.now().isoformat()` is passed in. -/
def save_image_history (db : DBState) (image_id : Nat) (folder : String)
    (image_data : Blob) (timestamp : String) : DBState :=
  { db with
    history := db.history ++
      [ { id := db.nextHistoryId, image_id := image_id, folder := folder,
          image_data := image_data, timestamp := timestamp } ],
    nextHistoryId := db.nextHistoryId + 1 }

/-- Method `DatabaseManager.get_image_id` (chitradrishya.py lines 319-329):
`SELECT id FROM images WHERE folder = ? AND name = ?` with `fetchone`,
which returns the first matching row in rowid order. -/
def get_image_id (db : DBState) (folder image_name : String) : Option Nat :=
  (db.images.find? (fun r => r.folder == folder && r.name == image_name)).map
    (fun r => r.id)

/-- One comparison step of the `ORDER BY timestamp DESC LIMIT 1`
selection: keep the row with the later timestamp, preferring the
earlier row on ties. -/
def pickLatest (acc : Option HistoryRow) (r : HistoryRow) : Option HistoryRow :=
  match acc with
  | none => some r
  | some b => if strLt b.timestamp r.timestamp then some r else acc

/-- Query `SELECT image_data, timestamp FROM image_history WHERE image_id = ?
ORDER BY timestamp DESC LIMIT 1` (chitradrishya.py line 340): some row
of the image whose timestamp is maximal (SQLite compares the ISO
timestamp strings lexicographically). -/
def latestHistory (rows : List HistoryRow) : Option HistoryRow :=
  rows.foldl pickLatest none

/-- Method `DatabaseManager.undo_image_edit` (chitradrishya.py lines 331-359).
`if not image_id` uses Python truthiness, so both `None` and `0` take
the error branch; the `ValueError` raised there is caught by the
function itself, which then returns `False` with nothing committed.
When a history row is found, the `UPDATE` rewrites every image row
matching `(folder, name)` and the `DELETE` removes every history row
matching `(image_id, timestamp)`. -/
def undo_image_edit (db : DBState) (folder image_name : String) :
    Bool × DBState :=
  match get_image_id db folder image_name with
  | none => (false, db)
  | some image_id =>
    if image_id == 0 then (false, db)
    else
      match latestHistory (db.history.filter (fun h => h.image_id == image_id)) with
      | none => (false, db)
      | some hr =>
        (true,
          { db with
            images := db.images.map (fun r =>
              if r.folder == folder && r.name == image_name then
                { r with image_data := hr.image_data }
              else r),
            history := db.history.filter (fun h =>
              !(h.image_id == image_id && h.timestamp == hr.timestamp)) })

/-- Method `DatabaseManager.update_download_permission` (chitradrishya.py
lines 361-372). -/
def update_download_permission (db : DBState) (folder image_name : String)
    (download_allowed : Bool) : DBState :=
  { db with
    images := db.images.map (fun r =>
      if r.folder == folder && r.name == image_name then
        { r with download_allowed := download_allowed }
      else r) }

/-- Method `DatabaseManager.delete_image` (chitradrishya.py lines 374-384). -/
def delete_image (db : DBState) (folder name : String) : DBState :=
  { db with
    images := db.images.filter (fun r =>
      !(r.folder == folder && r.name == name)) }

/-- Method `DatabaseManager.save_survey_data` (chitradrishya.py lines
404-415): `INSERT INTO surveys (folder, rating, feedback, timestamp)`. -/
def save_survey_data (db : DBState) (folder : String) (rating : Int)
    (feedback timestamp : String) : DBState :=
  { db with
    surveys := db.surveys ++
      [ { id := db.nextSurveyId, folder := folder, rating := rating,
          feedback := feedback, timestamp := timestamp } ],
    nextSurveyId := db.nextSurveyId + 1 }

/-- Method `DatabaseManager.delete_survey_entry` (chitradrishya.py lines
417-427): `DELETE FROM surveys WHERE folder = ? AND timestamp = ?`. -/
def delete_survey_entry (db : DBState) (folder timestamp : String) : DBState :=
  { db with
    surveys := db.surveys.filter (fun r =>
      !(r.folder == folder && r.timestamp == timestamp)) }

/-- The inline image-edit commit of the zoom view (chitradrishya.py
lines 1227-1240): `UPDATE images SET image_data = ? WHERE folder = ?
AND name = ?`. -/
def apply_image_edit (db : DBState) (folder image_name : String)
    (edited_data : Blob) : DBState :=
  { db with
    images := db.images.map (fun r =>
      if r.folder == folder && r.name == image_name then
        { r with image_data := edited_data }
      else r) }

end DatabaseManager

/-! ## `image_to_base64` (chitradrishya.py lines 31-35)

`base64.b64encode(image_data).decode('utf-8')`; the `isinstance` guard
never fires in the embedding because blobs are always byte lists. -/

/-- The standard base64 alphabet. -/
def base64Alphabet : List Char :=
  "ABCDEFGHIJKLMNOPQRSTUVWXYZabcdefghijklmnopqrstuvwxyz0123456789+/".data

/-- The base64 digit for a 6-bit value. -/
def b64digit (n : Nat) : Char :=
  base64Alphabet.getD n 'A'

/-- RFC 4648 base64 of a byte list, with padding. -/
def base64Encode : List Nat → List Char
  | [] => []
  | [a] =>
      [b64digit (a / 4 % 64), b64digit (a % 4 * 16), '=', '=']
  | [a, b] =>
      [b64digit (a / 4 % 64), b64digit (a % 4 * 16 + b / 16 % 16),
       b64digit (b % 16 * 4), '=']
  | a :: b :: c :: rest =>
      b64digit (a / 4 % 64) :: b64digit (a % 4 * 16 + b / 16 % 16) ::
      b64digit (b % 16 * 4 + c / 64 % 4) :: b64digit (c % 64) ::
      base64Encode rest

/-- Function `image_to_base64` from chitradrishya.py lines 31-35. -/
def image_to_base64 (image_data : Blob) : String :=
  String.mk (base64Encode image_data)

/-! ## `ImageProcessor` (chitradrishya.py lines 460-560)

Every editing operation opens the blob, applies one library primitive,
and saves the result as PNG; any exception (in particular a blob the
library cannot decode) is caught and turned into `None`. -/

namespace ImageProcessor

/-- Method `ImageProcessor.generate_thumbnail` (chitradrishya.py lines
463-468). -/
def generate_thumbnail (image : PILImage) : PILImage :=
  pilThumbnail (100, 100) image

/-- Method `ImageProcessor.crop_image` (chitradrishya.py lines 470-483). -/
def crop_image (image_data : Blob) (crop_box : Int × Int × Int × Int) :
    Option Blob :=
  match pilOpen image_data with
  | none => none
  | some img => some (encodePNG (pilCrop crop_box (pilConvert "RGB" img)))

/-- Method `ImageProcessor.rotate_image` (chitradrishya.py lines 485-498). -/
def rotate_image (image_data : Blob) (degrees : Int) : Option Blob :=
  match pilOpen image_data with
  | none => none
  | some img => some (encodePNG (pilRotate degrees (pilConvert "RGB" img)))

/-- Method `ImageProcessor.adjust_brightness` (chitradrishya.py lines 500-514). -/
def adjust_brightness (image_data : Blob) (factor : Rat) : Option Blob :=
  match pilOpen image_data with
  | none => none
  | some img => some (encodePNG (pilBrightness factor (pilConvert "RGB" img)))

/-- Method `ImageProcessor.adjust_contrast` (chitradrishya.py lines 516-530). -/
def adjust_contrast (image_data : Blob) (factor : Rat) : Option Blob :=
  match pilOpen image_data with
  | none => none
  | some img => some (encodePNG (pilContrast factor (pilConvert "RGB" img)))

/-- Method `ImageProcessor.adjust_sharpness` (chitradrishya.py lines 532-546). -/
def adjust_sharpness (image_data : Blob) (factor : Rat) : Option Blob :=
  match pilOpen image_data with
  | none => none
  | some img => some (encodePNG (pilSharpness factor (pilConvert "RGB" img)))

/-- Method `ImageProcessor.convert_to_grayscale` (chitradrishya.py lines
548-560). -/
def convert_to_grayscale (image_data : Blob) : Option Blob :=
  match pilOpen image_data with
  | none => none
  | some img => some (encodePNG (pilConvert "L" img))

end ImageProcessor

/-! ## `get_images` (chitradrishya.py lines 429-458) -/

/-- One element of the tuple returned by `get_images`. -/
structure GalleryEntry where
  name : String
  image : PILImage
  thumbnail : PILImage
  data : Blob
  download : Bool
  base64 : String
deriving Repr, DecidableEq

namespace DatabaseManager

/-- Method `DatabaseManager.get_images` (chitradrishya.py lines 429-458):
`SELECT name, image_data, download_allowed FROM images WHERE folder = ?`
in rowid order; a row whose blob the imaging library fails to open is
skipped (the per-row exception handler shows an error and continues). -/
def get_images (db : DBState) (folder : String) : List GalleryEntry :=
  db.images.filterMap (fun r =>
    if r.folder == folder then
      match pilOpen r.image_data with
      | some img =>
          some { name := r.name, image := img,
                 thumbnail := ImageProcessor.generate_thumbnail img,
                 data := r.image_data, download := r.download_allowed,
                 base64 := image_to_base64 r.image_data }
      | none => none
    else none)

end DatabaseManager

/-! ## `validate_file` (chitradrishya.py lines 46-66) -/

/-- An uploaded file as seen by `validate_file`: `content` is
`file.getvalue()`, `mime` is the `type` attribute (`none` when the
attribute is missing, `some ""` when it is empty or falsy). -/
structure UploadedFile where
  content : Blob
  name : String
  mime : Option String
deriving Repr, DecidableEq

/-- Lower-case a string character by character (`str.lower`). -/
def toLowerStr (s : String) : String :=
  String.mk (s.data.map Char.toLower)

/-- Semantics of `os.path.splitext(name)[1]`: the extension starts at the last dot,
unless every character before that dot is itself a dot (a leading-dot
file such as `.bashrc` has no extension). -/
def splitext_ext (name : String) : String :=
  let cs := name.data
  match cs.reverse.findIdx? (fun c => c == '.') with
  | none => ""
  | some k =>
      let i := cs.length - 1 - k
      if (cs.take i).all (fun c => c == '.') then ""
      else String.mk (cs.drop i)

/-- Expression `file.type if hasattr(file, 'type') and file.type else
os.path.splitext(file.name)[1].lower()` (chitradrishya.py line 53). -/
def file_type (f : UploadedFile) : String :=
  match f.mime with
  | some t => if t == "" then toLowerStr (splitext_ext f.name) else t
  | none => toLowerStr (splitext_ext f.name)

/-- The accepted types of chitradrishya.py line 54. -/
def allowedTypes : List String :=
  ["image/jpeg", "image/png", ".jpg", ".jpeg", ".png"]

/-- Function `validate_file` (chitradrishya.py lines 46-66).  Returns the Python
return value together with the inline `st.error` messages shown.  The
integrity check `Image.open(file).verify()` is modelled by `pilOpen` on
the file content; its exceptions are caught inside the function. -/
def validate_file (f : UploadedFile) : Bool × List String :=
  if f.content.length > MAX_FILE_SIZE_MB * 1024 * 1024 then
    (false, ["File " ++ f.name ++ " exceeds 5MB limit."])
  else if !(allowedTypes.contains (file_type f)) then
    (false, ["File " ++ f.name ++ " is not a supported type (JPG, JPEG, PNG)."])
  else if (pilOpen f.content).isNone then
    (false, ["File " ++ f.name ++ " is corrupted or invalid."])
  else
    (true, [])

/-! ## `album_category.py`: JSON-file survey storage

`load_survey_data` returns a JSON object mapping folder slugs to lists
of survey entries; a loaded object is modelled as an association list
with distinct keys (JSON object semantics). -/

namespace AlbumCategory

/-- One survey entry of `survey_data.json` (album_category.py line
129). -/
structure SurveyEntry where
  rating : Int
  feedback : String
  timestamp : String
deriving Repr, DecidableEq

/-- The loaded survey data: folder slug to entries, in key order. -/
abbrev SurveyData := List (String × List SurveyEntry)

/-- Function `delete_survey_entry` (album_category.py lines 46-50) applied to
the survey data returned by `load_survey_data`.  The first component
records whether `save_survey_data` (the write to `survey_data.json`)
was called. -/
def delete_survey_entry (sd : SurveyData) (folder timestamp : String) :
    Bool × SurveyData :=
  if sd.any (fun p => p.1 == folder) then
    (true,
      sd.map (fun p =>
        if p.1 == folder then
          (p.1, p.2.filter (fun e => !(e.timestamp == timestamp)))
        else p))
  else
    (false, sd)

end AlbumCategory

/-! ## Reachable database states

The application mutates `gallery.db` only through the handlers wired to
its UI (chitradrishya.py lines 739-1273).  `Reachable` closes the
initial state produced by the table-creation and default-folder part of
`init_db` under those handlers.  The survey handler (lines 1074-1085)
obtains its rating from `st.slider("Rating (1-5)", 1, 5, 3)`, whose
value is always within the slider bounds. -/

open DatabaseManager in
/-- Database states reachable by the application's operations. -/
inductive Reachable : DBState → Prop where
  | init (ns : Fin 7 → String) :
      Reachable (init_db_core ns emptyDB)
  | add_folder (db : DBState) (folder name : String) (age : Nat)
      (profession category : String) :
      Reachable db →
      Reachable (add_folder db folder name age profession category).2
  | update_folder_name (db : DBState) (folder new_name : String) :
      Reachable db →
      Reachable (update_folder_name db folder new_name).2
  | load_images (db : DBState) (uploads : List (String × Blob))
      (folder : String) (da : Bool) :
      Reachable db →
      Reachable (load_images_to_db db uploads folder da)
  | swap_image (db : DBState) (folder old_name : String) (data : Blob) :
      Reachable db →
      Reachable (swap_image db folder old_name data).2
  | save_image_history (db : DBState) (image_id : Nat) (folder : String)
      (data : Blob) (ts : String) :
      Reachable db →
      Reachable (save_image_history db image_id folder data ts)
  | undo_image_edit (db : DBState) (folder name : String) :
      Reachable db →
      Reachable (undo_image_edit db folder name).2
  | update_download_permission (db : DBState) (folder name : String)
      (da : Bool) :
      Reachable db →
      Reachable (update_download_permission db folder name da)
  | delete_image (db : DBState) (folder name : String) :
      Reachable db →
      Reachable (delete_image db folder name)
  | submit_survey (db : DBState) (folder : String) (rating : Int)
      (feedback ts : String) :
      1 ≤ rating → rating ≤ 5 →
      Reachable db →
      Reachable (save_survey_data db folder rating feedback ts)
  | delete_survey_entry (db : DBState) (folder ts : String) :
      Reachable db →
      Reachable (delete_survey_entry db folder ts)
  | apply_image_edit (db : DBState) (folder name : String) (data : Blob) :
      Reachable db →
      Reachable (apply_image_edit db folder name data)

/-! ## Theorems -/

/-- Claim C9: any string of 3 to 20 lowercase alphanumeric/underscore
characters followed by a single trailing newline is accepted by
`validate_folder_name`, so accepted slugs are not strictly restricted
to the characters of the pattern `^[a-z0-9_]{3,20}$`. -/
theorem validate_folder_name_accepts_trailing_newline
    (core : String)
    (h3 : 3 ≤ core.length) (h20 : core.length ≤ 20)
    (hc : core.data.all isSlugChar = true) :
    '\n' ∈ (core ++ "\n").data ∧
    validate_folder_name (core ++ "\n") = true := by
  have hdata : (core ++ "\n").data = core.data ++ ['\n'] := by
    simp [String.data_append]
  constructor
  · rw [hdata]
    exact List.mem_append_right _ (List.mem_singleton.mpr rfl)
  · have hcore : slugCore core.data = true := by
      simp [slugCore, hc, h3, h20]
    unfold validate_folder_name re_match_slug
    rw [hdata]
    simp [List.getLast?_concat, List.dropLast_concat, hcore]

/-- Closed witness for C9 at the concrete input `"abc" ++ "\n"`. -/
theorem validate_folder_name_accepts_trailing_newline_witness :
    '\n' ∈ ("abc" ++ "\n").data ∧
    validate_folder_name ("abc" ++ "\n") = true :=
  validate_folder_name_accepts_trailing_newline "abc"
    (by decide) (by decide) (by decide)

/-- Claim C2: a folder slug on which the regex
`^[a-z0-9_]{3,20}$` fails (under Python `re.match` semantics, the
semantics `validate_folder_name` implements) makes `add_folder` return
`False` and leave the database unchanged: no row is inserted. -/
theorem add_folder_rejects_invalid_slug
    (db : DBState) (folder name : String) (age : Nat)
    (profession category : String)
    (h : validate_folder_name folder = false) :
    DatabaseManager.add_folder db folder name age profession category =
      (false, db) := by
  unfold DatabaseManager.add_folder
  simp [h]

/-- Closed witness for C2 at the rejected slug `"AB"`. -/
theorem add_folder_rejects_invalid_slug_witness :
    DatabaseManager.add_folder Gallery.emptyDB "AB" "n" 1 "p" "c" =
      (false, Gallery.emptyDB) :=
  add_folder_rejects_invalid_slug Gallery.emptyDB "AB" "n" 1 "p" "c"
    (by decide)

/-- Claim C3 (divergence): the admin password is indeed read from the
environment with the fallback `"admin123"`, but the force-reset flag is
not: `chitradrishya.py` never binds the global `FORCE_DB_RESET` that
`init_db` reads at line 95, so `init_db` always raises `NameError`
before touching the database, for every environment. -/
theorem init_db_force_reset_name_error :
    (∀ env : Env, env "ADMIN_PASSWORD" = none →
        ADMIN_PASSWORD env = "admin123") ∧
    (∀ (env : Env) (p : String), env "ADMIN_PASSWORD" = some p →
        ADMIN_PASSWORD env = p) ∧
    (∀ (env : Env) (dbFileExists : Bool) (ns : Fin 7 → String)
        (db : DBState),
        DatabaseManager.init_db env dbFileExists ns db =
          Except.error "NameError: name FORCE_DB_RESET is not defined") := by
  refine ⟨?_, ?_, ?_⟩
  · intro env h
    simp [ADMIN_PASSWORD, h]
  · intro env p h
    simp [ADMIN_PASSWORD, h]
  · intro env dbFileExists ns db
    rfl

/-- Closed witness for C3 at concrete environments. -/
theorem init_db_force_reset_name_error_witness :
    ADMIN_PASSWORD (fun _ => none) = "admin123" ∧
    ADMIN_PASSWORD (fun _ => some "s3cret") = "s3cret" ∧
    DatabaseManager.init_db (fun _ => none) true (fun _ => "n") emptyDB =
      Except.error "NameError: name FORCE_DB_RESET is not defined" :=
  ⟨init_db_force_reset_name_error.1 (fun _ => none) rfl,
   init_db_force_reset_name_error.2.1 (fun _ => some "s3cret") "s3cret" rfl,
   init_db_force_reset_name_error.2.2 (fun _ => none) true (fun _ => "n")
     emptyDB⟩

/-- Claim C8: each of the six `ImageProcessor` editing operations
returns `None` when the imaging library cannot decode the input blob,
and every successful result is the output of the PNG encoder,
regardless of the input format. -/
theorem image_processor_png_or_none
    (data : Blob) (box : Int × Int × Int × Int) (deg : Int)
    (fb fc fs : Rat) :
    (pilOpen data = none →
      ImageProcessor.crop_image data box = none ∧
      ImageProcessor.rotate_image data deg = none ∧
      ImageProcessor.adjust_brightness data fb = none ∧
      ImageProcessor.adjust_contrast data fc = none ∧
      ImageProcessor.adjust_sharpness data fs = none ∧
      ImageProcessor.convert_to_grayscale data = none) ∧
    (∀ out, ImageProcessor.crop_image data box = some out →
      ∃ img, out = encodePNG img) ∧
    (∀ out, ImageProcessor.rotate_image data deg = some out →
      ∃ img, out = encodePNG img) ∧
    (∀ out, ImageProcessor.adjust_brightness data fb = some out →
      ∃ img, out = encodePNG img) ∧
    (∀ out, ImageProcessor.adjust_contrast data fc = some out →
      ∃ img, out = encodePNG img) ∧
    (∀ out, ImageProcessor.adjust_sharpness data fs = some out →
      ∃ img, out = encodePNG img) ∧
    (∀ out, ImageProcessor.convert_to_grayscale data = some out →
      ∃ img, out = encodePNG img) := by
  cases hpil : pilOpen data with
  | none =>
      refine ⟨fun _ => ?_, ?_, ?_, ?_, ?_, ?_, ?_⟩ <;>
        simp [ImageProcessor.crop_image, ImageProcessor.rotate_image,
          ImageProcessor.adjust_brightness, ImageProcessor.adjust_contrast,
          ImageProcessor.adjust_sharpness, ImageProcessor.convert_to_grayscale,
          hpil]
  | some img =>
      refine ⟨fun hn => by simp [hpil] at hn, ?_, ?_, ?_, ?_, ?_, ?_⟩ <;>
        · intro out hout
          simp [ImageProcessor.crop_image, ImageProcessor.rotate_image,
            ImageProcessor.adjust_brightness, ImageProcessor.adjust_contrast,
            ImageProcessor.adjust_sharpness, ImageProcessor.convert_to_grayscale,
            hpil] at hout
          exact ⟨_, hout.symm⟩

/-- Closed witness for C8: a garbage blob yields `None` everywhere, and
a PNG blob crops to a PNG-encoded output. -/
theorem image_processor_png_or_none_witness :
    ImageProcessor.crop_image [0, 1] (0, 0, 1, 1) = none ∧
    ∃ img, ImageProcessor.crop_image pngSig (0, 0, 1, 1) =
      some (encodePNG img) := by
  constructor
  · exact ((image_processor_png_or_none [0, 1] (0, 0, 1, 1) 0 1 1 1).1
      (by decide)).1
  · obtain ⟨img, h⟩ :=
      (image_processor_png_or_none pngSig (0, 0, 1, 1) 0 1 1 1).2.1
        (ImageProcessor.crop_image pngSig (0, 0, 1, 1)).get!
        (by decide)
    exact ⟨img, by rw [← h]; decide⟩

/-- Claim C6: `validate_file` returns `False` exactly when the file
exceeds 5 MB, or its type (the MIME type when present and non-empty,
otherwise the lower-cased filename extension) is not an accepted
JPEG/PNG type, or the imaging library fails to open the content; each
failure shows an inline error message, a success shows none, and no
exception escapes (the function is total). -/
theorem validate_file_spec (f : UploadedFile) :
    ((validate_file f).1 = false ↔
      (MAX_FILE_SIZE_MB * 1024 * 1024 < f.content.length ∨
       file_type f ∉ allowedTypes ∨
       pilOpen f.content = none)) ∧
    ((validate_file f).1 = false → (validate_file f).2 ≠ []) ∧
    ((validate_file f).1 = true → (validate_file f).2 = []) := by
  unfold validate_file
  by_cases h1 : MAX_FILE_SIZE_MB * 1024 * 1024 < f.content.length
  · simp [h1]
  · by_cases h2 : file_type f ∈ allowedTypes
    · by_cases h3 : pilOpen f.content = none
      · simp [h1, h2, h3]
      · simp [h1, h2, h3, Option.isNone_iff_eq_none]
    · simp [h1, h2]

/-- Closed witness for C6: a well-formed PNG upload passes with no
message; a corrupt blob is rejected. -/
theorem validate_file_spec_witness :
    (validate_file
      { content := pngSig, name := "x.png", mime := some "image/png" }).2 = [] ∧
    (validate_file
      { content := [0, 1], name := "x.png", mime := some "image/png" }).1 =
        false :=
  ⟨(validate_file_spec
      { content := pngSig, name := "x.png", mime := some "image/png" }).2.2
      (by decide),
   (validate_file_spec
      { content := [0, 1], name := "x.png", mime := some "image/png" }).1.mpr
      (Or.inr (Or.inr (by decide)))⟩

/-- Looking the deleted folder up after the folder-update map of
`delete_survey_entry` yields the filtered entry list. -/
theorem lookup_delete_map_self (folder ts : String)
    (sd : AlbumCategory.SurveyData) :
    List.lookup folder (sd.map (fun p =>
      if p.1 == folder then
        (p.1, p.2.filter (fun e => !(e.timestamp == ts)))
      else p)) =
    (List.lookup folder sd).map
      (fun es => es.filter (fun e => !(e.timestamp == ts))) := by
  induction sd with
  | nil => simp
  | cons hd tl ih =>
      obtain ⟨k, es⟩ := hd
      by_cases hk : k = folder
      · subst hk
        simp [List.lookup_cons]
      · have hk2 : folder ≠ k := Ne.symm hk
        simp only [beq_iff_eq] at ih
        simp [List.lookup_cons, hk, beq_false_of_ne hk2, ih]

/-- Looking any other folder up after the folder-update map of
`delete_survey_entry` yields the original entry list. -/
theorem lookup_delete_map_other (folder ts g : String) (hg : g ≠ folder)
    (sd : AlbumCategory.SurveyData) :
    List.lookup g (sd.map (fun p =>
      if p.1 == folder then
        (p.1, p.2.filter (fun e => !(e.timestamp == ts)))
      else p)) =
    List.lookup g sd := by
  induction sd with
  | nil => simp
  | cons hd tl ih =>
      obtain ⟨k, es⟩ := hd
      by_cases hk : k = folder
      · subst hk
        simp only [beq_iff_eq] at ih
        simp [List.lookup_cons, hg, beq_false_of_ne hg, ih]
      · by_cases hgk : g = k
        · subst hgk
          simp [List.lookup_cons, hk]
        · simp only [beq_iff_eq] at ih
          simp [List.lookup_cons, hk, beq_false_of_ne hgk, ih]

/-- Claim C10: `delete_survey_entry` of `album_category.py` removes,
from the given folder's list, exactly the entries whose timestamp
equals the given one, leaves every other folder's entries unchanged,
and writes nothing when the folder key is absent from the loaded
data. -/
theorem delete_survey_entry_spec (sd : AlbumCategory.SurveyData)
    (folder ts : String) :
    (sd.any (fun p => p.1 == folder) = false →
      AlbumCategory.delete_survey_entry sd folder ts = (false, sd)) ∧
    (sd.any (fun p => p.1 == folder) = true →
      (AlbumCategory.delete_survey_entry sd folder ts).1 = true ∧
      List.lookup folder (AlbumCategory.delete_survey_entry sd folder ts).2 =
        (List.lookup folder sd).map
          (fun es => es.filter (fun e => !(e.timestamp == ts))) ∧
      (∀ g, g ≠ folder →
        List.lookup g (AlbumCategory.delete_survey_entry sd folder ts).2 =
          List.lookup g sd)) := by
  constructor
  · intro h
    unfold AlbumCategory.delete_survey_entry
    simp [h]
  · intro h
    unfold AlbumCategory.delete_survey_entry
    rw [h]
    simp only [if_true]
    exact ⟨trivial, lookup_delete_map_self folder ts sd,
      fun g hg => lookup_delete_map_other folder ts g hg sd⟩

/-- Closed witness for C10 at a two-folder survey file. -/
theorem delete_survey_entry_spec_witness :
    (AlbumCategory.delete_survey_entry
      [("g", [⟨5, "z", "t1"⟩])] "f" "t1" = (false, [("g", [⟨5, "z", "t1"⟩])])) ∧
    List.lookup "f"
      (AlbumCategory.delete_survey_entry
        [("f", [⟨3, "x", "t1"⟩, ⟨4, "y", "t2"⟩]), ("g", [⟨5, "z", "t1"⟩])]
        "f" "t1").2 = some [⟨4, "y", "t2"⟩] ∧
    List.lookup "g"
      (AlbumCategory.delete_survey_entry
        [("f", [⟨3, "x", "t1"⟩, ⟨4, "y", "t2"⟩]), ("g", [⟨5, "z", "t1"⟩])]
        "f" "t1").2 = some [⟨5, "z", "t1"⟩] := by
  refine ⟨?_, ?_, ?_⟩
  · exact (delete_survey_entry_spec [("g", [⟨5, "z", "t1"⟩])] "f" "t1").1
      (by decide)
  · have h := (delete_survey_entry_spec
      [("f", [⟨3, "x", "t1"⟩, ⟨4, "y", "t2"⟩]), ("g", [⟨5, "z", "t1"⟩])]
      "f" "t1").2 (by decide)
    rw [h.2.1]
    decide
  · have h := (delete_survey_entry_spec
      [("f", [⟨3, "x", "t1"⟩, ⟨4, "y", "t2"⟩]), ("g", [⟨5, "z", "t1"⟩])]
      "f" "t1").2 (by decide)
    rw [h.2.2 "g" (by decide)]
    decide

/-- Lemma: `insertUpload` never removes an image row. -/
theorem mem_images_insertUpload (folder : String) (da : Bool)
    (d : DBState) (u : String × Blob) (r : ImageRow)
    (hr : r ∈ d.images) :
    r ∈ (DatabaseManager.insertUpload folder da d u).images := by
  unfold DatabaseManager.insertUpload
  split
  · exact hr
  · exact List.mem_append_left _ hr

/-- Lemma: `load_images_to_db` never removes an image row. -/
theorem mem_images_load_images_to_db (folder : String) (da : Bool) :
    ∀ (uploads : List (String × Blob)) (db : DBState) (r : ImageRow),
      r ∈ db.images →
      r ∈ (DatabaseManager.load_images_to_db db uploads folder da).images := by
  intro uploads
  induction uploads with
  | nil => intro db r hr; exact hr
  | cons u tl ih =>
      intro db r hr
      show r ∈ (List.foldl (DatabaseManager.insertUpload folder da)
        (DatabaseManager.insertUpload folder da db u) tl).images
      exact ih _ r (mem_images_insertUpload folder da db u r hr)

/-- A stored row whose blob the imaging library opens appears in the
output of `get_images` for its folder. -/
theorem get_images_mem (db : DBState) (folder : String) (r : ImageRow)
    (hr : r ∈ db.images) (hf : r.folder = folder)
    (img : PILImage) (himg : pilOpen r.image_data = some img) :
    ({ name := r.name, image := img,
       thumbnail := ImageProcessor.generate_thumbnail img,
       data := r.image_data, download := r.download_allowed,
       base64 := image_to_base64 r.image_data } : GalleryEntry) ∈
      DatabaseManager.get_images db folder := by
  unfold DatabaseManager.get_images
  refine List.mem_filterMap.mpr ⟨r, hr, ?_⟩
  simp [hf, himg]

/-- Running the upload loop on pairwise-fresh filenames stores each
blob verbatim in a row of the target folder. -/
theorem load_images_to_db_row (folder : String) (da : Bool) :
    ∀ (uploads : List (String × Blob)) (db : DBState),
      (uploads.map Prod.fst).Nodup →
      (∀ u ∈ uploads,
        db.images.any (fun r => r.folder == folder && r.name == u.1) = false) →
      ∀ nm d, (nm, d) ∈ uploads →
        ∃ r ∈ (DatabaseManager.load_images_to_db db uploads folder da).images,
          r.name = nm ∧ r.folder = folder ∧ r.image_data = d ∧
          r.download_allowed = da := by
  intro uploads
  induction uploads with
  | nil =>
      intro db _ _ nm d h
      simp at h
  | cons u tl ih =>
      intro db hnodup hfresh nm d hmem
      have hguard : db.images.any
          (fun r => r.folder == folder && r.name == u.1) = false :=
        hfresh u (List.mem_cons_self u tl)
      have hstep : DatabaseManager.insertUpload folder da db u =
          { db with
            images := db.images ++
              [ { id := db.nextImageId, name := u.1, folder := folder,
                  image_data := u.2, download_allowed := da } ],
            nextImageId := db.nextImageId + 1 } := by
        unfold DatabaseManager.insertUpload
        rw [hguard]
        rfl
      have hload : DatabaseManager.load_images_to_db db (u :: tl) folder da =
          DatabaseManager.load_images_to_db
            (DatabaseManager.insertUpload folder da db u) tl folder da := rfl
      simp only [List.map_cons, List.nodup_cons] at hnodup
      rcases List.mem_cons.mp hmem with heq | htl
      · have h1 : u.1 = nm := by rw [← heq]
        have h2 : u.2 = d := by rw [← heq]
        refine ⟨{ id := db.nextImageId, name := u.1, folder := folder,
                  image_data := u.2, download_allowed := da },
                ?_, h1, rfl, h2, rfl⟩
        rw [hload]
        apply mem_images_load_images_to_db folder da tl
        rw [hstep]
        exact List.mem_append_right _ (List.mem_singleton_self _)
      · have hfresh2 : ∀ v ∈ tl,
            (DatabaseManager.insertUpload folder da db u).images.any
              (fun r => r.folder == folder && r.name == v.1) = false := by
          intro v hv
          rw [hstep]
          simp only [List.any_append, List.any_cons, List.any_nil,
            Bool.or_false]
          rw [hfresh v (List.mem_cons_of_mem u hv)]
          simp only [Bool.false_or]
          have hne : u.1 ≠ v.1 := by
            intro hcontr
            exact hnodup.1 (hcontr ▸ List.mem_map_of_mem Prod.fst hv)
          simp [hne]
        rw [hload]
        exact ih _ hnodup.2 hfresh2 nm d htl

/-- Claim C1: a blob the imaging library can decode, stored unedited via
`load_images_to_db` under fresh random filenames, is returned by a
subsequent `get_images` on the same folder with its `data` field equal
to the original bytes: the upload/read pair round-trips blobs through
the database unchanged. -/
theorem upload_roundtrip (db : DBState) (folder : String) (da : Bool)
    (uploads : List (String × Blob)) (nm : String) (d : Blob)
    (hmem : (nm, d) ∈ uploads)
    (hnodup : (uploads.map Prod.fst).Nodup)
    (hfresh : ∀ u ∈ uploads,
      db.images.any (fun r => r.folder == folder && r.name == u.1) = false)
    (img : PILImage) (hvalid : pilOpen d = some img) :
    ∃ e ∈ DatabaseManager.get_images
        (DatabaseManager.load_images_to_db db uploads folder da) folder,
      e.name = nm ∧ e.data = d := by
  obtain ⟨r, hrmem, hrname, hrfolder, hrdata, hrda⟩ :=
    load_images_to_db_row folder da uploads db hnodup hfresh nm d hmem
  have himg : pilOpen r.image_data = some img := by rw [hrdata]; exact hvalid
  exact ⟨_, get_images_mem _ folder r hrmem hrfolder img himg, hrname, hrdata⟩

/-- Closed witness for C1: one PNG blob uploaded into an empty database
is read back unchanged. -/
theorem upload_roundtrip_witness :
    ∃ e ∈ DatabaseManager.get_images
        (DatabaseManager.load_images_to_db emptyDB [("u.png", pngSig)]
          "artist1" true) "artist1",
      e.name = "u.png" ∧ e.data = pngSig :=
  upload_roundtrip emptyDB "artist1" true [("u.png", pngSig)] "u.png" pngSig
    (by simp) (by simp) (by intro u hu; simp [emptyDB])
    { mode := "native", payload := pngSig } (by decide)

/-! ### Frame lemmas: which operations leave `folders` and `surveys`
untouched -/

/-- The slug column of the `folders` table. -/
def folderSlugs (db : DBState) : List String :=
  db.folders.map (fun r => r.folder)

/-- A slug on which `any` fails is not in the slug column. -/
theorem not_mem_folderSlugs (db : DBState) (s : String)
    (h : db.folders.any (fun r => r.folder == s) = false) :
    s ∉ folderSlugs db := by
  intro hmem
  obtain ⟨r, hr, hrs⟩ := List.mem_map.mp hmem
  simp only [List.any_eq_false] at h
  exact h r hr (by simp [hrs])

/-- Lemma: `insertDefault` preserves distinctness of folder slugs. -/
theorem nodup_insertDefault (db : DBState)
    (fd : DatabaseManager.DefaultFolder)
    (h : (folderSlugs db).Nodup) :
    (folderSlugs (DatabaseManager.insertDefault db fd)).Nodup := by
  unfold DatabaseManager.insertDefault
  split
  · split
    · exact h
    · rename_i hval hany
      have hany2 : db.folders.any (fun r => r.folder == fd.folder) = false :=
        Bool.not_eq_true _ ▸ eq_false_of_ne_true hany
      simp only [folderSlugs, List.map_append, List.map_cons, List.map_nil]
      rw [List.nodup_append]
      refine ⟨h, List.nodup_singleton _, ?_⟩
      intro a ha hb
      rw [List.mem_singleton] at hb
      subst hb
      exact not_mem_folderSlugs db fd.folder hany2 ha
  · exact h

/-- The default-folder loop preserves distinctness of folder slugs. -/
theorem nodup_foldl_insertDefault :
    ∀ (l : List DatabaseManager.DefaultFolder) (db : DBState),
      (folderSlugs db).Nodup →
      (folderSlugs (l.foldl DatabaseManager.insertDefault db)).Nodup := by
  intro l
  induction l with
  | nil => intro db h; exact h
  | cons fd tl ih =>
      intro db h
      exact ih _ (nodup_insertDefault db fd h)

/-- Lemma: `add_folder` preserves distinctness of folder slugs. -/
theorem nodup_add_folder (db : DBState) (folder name : String) (age : Nat)
    (profession category : String)
    (h : (folderSlugs db).Nodup) :
    (folderSlugs
      (DatabaseManager.add_folder db folder name age profession category).2).Nodup := by
  unfold DatabaseManager.add_folder
  split
  · exact h
  · split
    · exact h
    · rename_i hany
      have hany2 : db.folders.any (fun r => r.folder == folder) = false :=
        Bool.not_eq_true _ ▸ eq_false_of_ne_true hany
      simp only [folderSlugs, List.map_append, List.map_cons, List.map_nil]
      rw [List.nodup_append]
      refine ⟨h, List.nodup_singleton _, ?_⟩
      intro a ha hb
      rw [List.mem_singleton] at hb
      exact not_mem_folderSlugs db folder hany2 (hb ▸ ha)

/-- Renaming a candidate does not change the slug column. -/
theorem folderSlugs_update_folder_name (db : DBState) (folder nn : String) :
    folderSlugs (DatabaseManager.update_folder_name db folder nn).2 =
      folderSlugs db := by
  unfold DatabaseManager.update_folder_name folderSlugs
  simp only [List.map_map]
  apply List.map_congr_left
  intro r hr
  by_cases h : r.folder = folder <;> simp [h]

/-- Lemma: `insertUpload` leaves `folders` and `surveys` untouched. -/
theorem insertUpload_frame (folder : String) (da : Bool) (d : DBState)
    (u : String × Blob) :
    (DatabaseManager.insertUpload folder da d u).folders = d.folders ∧
    (DatabaseManager.insertUpload folder da d u).surveys = d.surveys := by
  unfold DatabaseManager.insertUpload
  split <;> exact ⟨rfl, rfl⟩

/-- Lemma: `load_images_to_db` leaves `folders` and `surveys` untouched. -/
theorem load_images_to_db_frame (folder : String) (da : Bool) :
    ∀ (uploads : List (String × Blob)) (db : DBState),
      (DatabaseManager.load_images_to_db db uploads folder da).folders =
        db.folders ∧
      (DatabaseManager.load_images_to_db db uploads folder da).surveys =
        db.surveys := by
  intro uploads
  induction uploads with
  | nil => intro db; exact ⟨rfl, rfl⟩
  | cons u tl ih =>
      intro db
      have hstep := insertUpload_frame folder da db u
      have htl := ih (DatabaseManager.insertUpload folder da db u)
      exact ⟨htl.1.trans hstep.1, htl.2.trans hstep.2⟩

/-- Lemma: `undo_image_edit` leaves `folders` and `surveys` untouched. -/
theorem undo_image_edit_frame (db : DBState) (folder name : String) :
    (DatabaseManager.undo_image_edit db folder name).2.folders = db.folders ∧
    (DatabaseManager.undo_image_edit db folder name).2.surveys =
      db.surveys := by
  unfold DatabaseManager.undo_image_edit
  split
  · exact ⟨rfl, rfl⟩
  · split
    · exact ⟨rfl, rfl⟩
    · split
      · exact ⟨rfl, rfl⟩
      · exact ⟨rfl, rfl⟩

/-- Claim C4: in every reachable database state the folder slugs are
pairwise distinct, and `add_folder` on a slug that already exists
returns `False` without touching the database (the `UNIQUE` constraint
raises `sqlite3.IntegrityError`, which the code converts to `False`). -/
theorem folder_slugs_unique :
    (∀ db : DBState, Reachable db → (folderSlugs db).Nodup) ∧
    (∀ (db : DBState) (folder name : String) (age : Nat)
       (profession category : String),
       db.folders.any (fun r => r.folder == folder) = true →
       DatabaseManager.add_folder db folder name age profession category =
         (false, db)) := by
  constructor
  · intro db h
    induction h with
    | init ns =>
        exact nodup_foldl_insertDefault _ emptyDB (by simp [folderSlugs, emptyDB])
    | add_folder db f n a p c hdb ih =>
        exact nodup_add_folder db f n a p c ih
    | update_folder_name db f nn hdb ih =>
        rw [folderSlugs_update_folder_name]
        exact ih
    | load_images db uploads f da hdb ih =>
        have := (load_images_to_db_frame f da uploads db).1
        simpa [folderSlugs, this] using ih
    | swap_image db f o d hdb ih => exact ih
    | save_image_history db iid f d ts hdb ih => exact ih
    | undo_image_edit db f n hdb ih =>
        have := (undo_image_edit_frame db f n).1
        simpa [folderSlugs, this] using ih
    | update_download_permission db f n da hdb ih => exact ih
    | delete_image db f n hdb ih => exact ih
    | submit_survey db f r fb ts h1 h5 hdb ih => exact ih
    | delete_survey_entry db f ts hdb ih => exact ih
    | apply_image_edit db f n d hdb ih => exact ih
  · intro db folder name age profession category hdup
    unfold DatabaseManager.add_folder
    split
    · rfl
    · simp [hdup]

/-- Closed witness for C4: the initial slugs are distinct, and
re-adding an existing slug fails and changes nothing. -/
theorem folder_slugs_unique_witness :
    (folderSlugs
      (DatabaseManager.init_db_core (fun _ => "n") emptyDB)).Nodup ∧
    DatabaseManager.add_folder
      (DatabaseManager.add_folder emptyDB "abc" "n" 1 "p" "c").2
      "abc" "n2" 2 "p2" "c2" =
      (false, (DatabaseManager.add_folder emptyDB "abc" "n" 1 "p" "c").2) :=
  ⟨folder_slugs_unique.1 _ (Reachable.init (fun _ => "n")),
   folder_slugs_unique.2 _ "abc" "n2" 2 "p2" "c2" (by decide)⟩

/-- Claim C7: every survey row of every reachable database state has a
rating between 1 and 5: the only survey-recording path is the survey
form, whose `st.slider("Rating (1-5)", 1, 5, 3)` value is within the
slider bounds when `save_survey_data` inserts it. -/
theorem survey_rating_in_range :
    ∀ db : DBState, Reachable db →
      ∀ row ∈ db.surveys, 1 ≤ row.rating ∧ row.rating ≤ 5 := by
  intro db h
  induction h with
  | init ns =>
      intro row hrow
      have hs : (DatabaseManager.init_db_core ns emptyDB).surveys = [] := by
        have : ∀ (l : List DatabaseManager.DefaultFolder) (d : DBState),
            (l.foldl DatabaseManager.insertDefault d).surveys = d.surveys := by
          intro l
          induction l with
          | nil => intro d; rfl
          | cons fd tl ih =>
              intro d
              rw [List.foldl_cons, ih]
              unfold DatabaseManager.insertDefault
              split
              · split <;> rfl
              · rfl
        exact this _ _
      rw [hs] at hrow
      cases hrow
  | add_folder db f n a p c hdb ih =>
      intro row hrow
      apply ih row
      revert hrow
      unfold DatabaseManager.add_folder
      split
      · exact id
      · split <;> exact id
  | update_folder_name db f nn hdb ih => exact ih
  | load_images db uploads f da hdb ih =>
      intro row hrow
      apply ih row
      rw [← (load_images_to_db_frame f da uploads db).2]
      exact hrow
  | swap_image db f o d hdb ih => exact ih
  | save_image_history db iid f d ts hdb ih => exact ih
  | undo_image_edit db f n hdb ih =>
      intro row hrow
      apply ih row
      rw [← (undo_image_edit_frame db f n).2]
      exact hrow
  | update_download_permission db f n da hdb ih => exact ih
  | delete_image db f n hdb ih => exact ih
  | submit_survey db f r fb ts h1 h5 hdb ih =>
      intro row hrow
      unfold DatabaseManager.save_survey_data at hrow
      simp only [List.mem_append, List.mem_singleton] at hrow
      rcases hrow with hold | hnew
      · exact ih row hold
      · subst hnew
        exact ⟨h1, h5⟩
  | delete_survey_entry db f ts hdb ih =>
      intro row hrow
      apply ih row
      unfold DatabaseManager.delete_survey_entry at hrow
      simp only at hrow
      exact List.mem_of_mem_filter hrow
  | apply_image_edit db f n d hdb ih => exact ih

/-- Closed witness for C7: the survey row inserted by one submission
after startup satisfies the rating bound. -/
theorem survey_rating_in_range_witness :
    1 ≤ ({ id := (DatabaseManager.init_db_core (fun _ => "n") emptyDB).nextSurveyId,
           folder := "artist1", rating := 4, feedback := "nice",
           timestamp := "2025-01-01T00:00:00" } : SurveyRow).rating ∧
    ({ id := (DatabaseManager.init_db_core (fun _ => "n") emptyDB).nextSurveyId,
       folder := "artist1", rating := 4, feedback := "nice",
       timestamp := "2025-01-01T00:00:00" } : SurveyRow).rating ≤ 5 :=
  survey_rating_in_range
    (DatabaseManager.save_survey_data
      (DatabaseManager.init_db_core (fun _ => "n") emptyDB)
      "artist1" 4 "nice" "2025-01-01T00:00:00")
    (Reachable.submit_survey _ "artist1" 4 "nice" "2025-01-01T00:00:00"
      (by decide) (by decide) (Reachable.init (fun _ => "n")))
    _ (List.mem_append_right _ (List.mem_singleton_self _))

/-! ### Properties of the `ORDER BY timestamp DESC LIMIT 1` selection -/

/-- Lemma: `charListLt` computes the lexicographic order on character lists. -/
theorem charListLt_iff_lex :
    ∀ l₁ l₂ : List Char, charListLt l₁ l₂ = true ↔ List.Lex (· < ·) l₁ l₂ := by
  intro l₁
  induction l₁ with
  | nil =>
      intro l₂
      cases l₂ with
      | nil =>
          exact iff_of_false (by simp [charListLt])
            (List.Lex.not_nil_right _ _)
      | cons b bs => exact iff_of_true rfl List.Lex.nil
  | cons a as ih =>
      intro l₂
      cases l₂ with
      | nil =>
          exact iff_of_false (by simp [charListLt])
            (List.Lex.not_nil_right _ _)
      | cons b bs =>
          by_cases h1 : a.toNat < b.toNat
          · refine iff_of_true ?_ (List.Lex.rel h1)
            simp [charListLt, h1]
          · by_cases h2 : b.toNat < a.toNat
            · refine iff_of_false ?_ ?_
              · simp [charListLt, h1, h2]
              · intro hlex
                cases hlex with
                | cons h => exact lt_irrefl _ h2
                | rel h => exact absurd h2 (not_lt.mpr (le_of_lt h))
            · have hn : a.toNat = b.toNat :=
                Nat.le_antisymm (not_lt.mp h2) (not_lt.mp h1)
              have hab : a = b := Char.eq_of_val_eq (UInt32.ext hn)
              subst hab
              have hstep : charListLt (a :: as) (a :: bs) = charListLt as bs := by
                simp [charListLt, h1]
              rw [hstep, ih bs]
              constructor
              · exact fun h => List.Lex.cons h
              · intro hlex
                cases hlex with
                | cons h => exact h
                | rel h => exact absurd h (lt_irrefl a)

/-- Lemma: `strLt` computes the order on strings used by Mathlib's
`LinearOrder String`. -/
theorem strLt_iff (a b : String) : strLt a b = true ↔ a < b := by
  rw [strLt, charListLt_iff_lex, String.lt_iff_toList_lt]
  exact Iff.rfl

/-- The fold of `pickLatest` returns either the accumulator or a list
element, and its timestamp dominates the accumulator and every list
element. -/
theorem pickLatest_foldl_spec :
    ∀ (rows : List HistoryRow) (acc : Option HistoryRow) (res : HistoryRow),
      rows.foldl DatabaseManager.pickLatest acc = some res →
      (acc = some res ∨ res ∈ rows) ∧
      (∀ b, acc = some b → b.timestamp ≤ res.timestamp) ∧
      (∀ x ∈ rows, x.timestamp ≤ res.timestamp) := by
  intro rows
  induction rows with
  | nil =>
      intro acc res h
      simp only [List.foldl_nil] at h
      refine ⟨Or.inl h, ?_, ?_⟩
      · intro b hb
        rw [h] at hb
        cases hb
        exact le_refl _
      · intro x hx
        cases hx
  | cons r tl ih =>
      intro acc res h
      rw [List.foldl_cons] at h
      obtain ⟨hmem, hacc, hall⟩ := ih (DatabaseManager.pickLatest acc r) res h
      cases acc with
      | none =>
          have hp : DatabaseManager.pickLatest none r = some r := rfl
          rw [hp] at hmem hacc
          refine ⟨?_, ?_, ?_⟩
          · rcases hmem with he | hm
            · exact Or.inr ((Option.some.inj he) ▸ List.mem_cons_self r tl)
            · exact Or.inr (List.mem_cons_of_mem r hm)
          · intro b hb
            cases hb
          · intro x hx
            rcases List.mem_cons.mp hx with hxr | hxtl
            · subst hxr
              exact hacc x rfl
            · exact hall x hxtl
      | some b =>
          by_cases hcmp : strLt b.timestamp r.timestamp = true
          · have hlt : b.timestamp < r.timestamp := (strLt_iff _ _).mp hcmp
            have hp : DatabaseManager.pickLatest (some b) r = some r := by
              unfold DatabaseManager.pickLatest
              simp [hcmp]
            rw [hp] at hmem hacc
            refine ⟨?_, ?_, ?_⟩
            · rcases hmem with he | hm
              · exact Or.inr ((Option.some.inj he) ▸ List.mem_cons_self r tl)
              · exact Or.inr (List.mem_cons_of_mem r hm)
            · intro b0 hb0
              cases Option.some.inj hb0
              exact le_trans (le_of_lt hlt) (hacc r rfl)
            · intro x hx
              rcases List.mem_cons.mp hx with hxr | hxtl
              · subst hxr
                exact hacc x rfl
              · exact hall x hxtl
          · have hle : r.timestamp ≤ b.timestamp :=
              not_lt.mp (fun hl => hcmp ((strLt_iff _ _).mpr hl))
            have hp : DatabaseManager.pickLatest (some b) r = some b := by
              unfold DatabaseManager.pickLatest
              simp [hcmp]
            rw [hp] at hmem hacc
            refine ⟨?_, ?_, ?_⟩
            · rcases hmem with he | hm
              · exact Or.inl he
              · exact Or.inr (List.mem_cons_of_mem r hm)
            · intro b0 hb0
              cases Option.some.inj hb0
              exact hacc b rfl
            · intro x hx
              rcases List.mem_cons.mp hx with hxr | hxtl
              · subst hxr
                exact le_trans hle (hacc b rfl)
              · exact hall x hxtl

/-- A row selected by `latestHistory` belongs to the list and carries a
maximal timestamp. -/
theorem latestHistory_spec (rows : List HistoryRow) (hr : HistoryRow)
    (h : DatabaseManager.latestHistory rows = some hr) :
    hr ∈ rows ∧ ∀ x ∈ rows, x.timestamp ≤ hr.timestamp := by
  obtain ⟨hmem, _, hall⟩ := pickLatest_foldl_spec rows none hr h
  rcases hmem with he | hm
  · cases he
  · exact ⟨hm, hall⟩

/-- In a list with pairwise-distinct timestamps, filtering on the
timestamp of a member yields exactly that member. -/
theorem filter_timestamp_singleton (l : List HistoryRow) (hr : HistoryRow)
    (hmem : hr ∈ l)
    (hdist : l.Pairwise (fun a b => a.timestamp ≠ b.timestamp)) :
    l.filter (fun h => h.timestamp == hr.timestamp) = [hr] := by
  induction l with
  | nil => cases hmem
  | cons a tl ih =>
      rw [List.pairwise_cons] at hdist
      rcases List.mem_cons.mp hmem with he | hm
      · subst he
        simp only [List.filter_cons]
        rw [if_pos (by simp)]
        have hnil : tl.filter (fun h => h.timestamp == hr.timestamp) = [] := by
          rw [List.filter_eq_nil_iff]
          intro x hx
          simp [Ne.symm (hdist.1 x hx)]
        rw [hnil]
      · have hane : a.timestamp ≠ hr.timestamp := hdist.1 hr hm
        simp only [List.filter_cons]
        rw [if_neg (by simp [hane])]
        exact ih hm hdist.2

/-- The keep/remove split of a filter partitions the list's length. -/
theorem length_filter_not_add (l : List HistoryRow)
    (p : HistoryRow → Bool) :
    (l.filter (fun x => !(p x))).length + (l.filter p).length = l.length := by
  induction l with
  | nil => rfl
  | cons a tl ih =>
      cases hpa : p a <;> simp [List.filter_cons, hpa] <;> omega

/-- Claim C5 (amended): `undo_image_edit` returns `False` and leaves
the database unchanged when the image is missing or has no history
rows; otherwise it overwrites the image's blob with a history snapshot
of maximal timestamp, deletes every history row of that image bearing
that timestamp — exactly one row when the image's history timestamps
are pairwise distinct — and returns `True`. -/
theorem undo_image_edit_spec (db : DBState) (folder image_name : String) :
    (DatabaseManager.get_image_id db folder image_name = none →
      DatabaseManager.undo_image_edit db folder image_name = (false, db)) ∧
    (∀ iid, DatabaseManager.get_image_id db folder image_name = some iid →
      iid ≠ 0 →
      (db.history.filter (fun h => h.image_id == iid) = [] →
        DatabaseManager.undo_image_edit db folder image_name = (false, db)) ∧
      (∀ hr, DatabaseManager.latestHistory
          (db.history.filter (fun h => h.image_id == iid)) = some hr →
        hr ∈ db.history ∧
        hr.image_id = iid ∧
        (∀ h ∈ db.history, h.image_id = iid →
          h.timestamp ≤ hr.timestamp) ∧
        DatabaseManager.undo_image_edit db folder image_name =
          (true,
            { db with
              images := db.images.map (fun r =>
                if r.folder == folder && r.name == image_name then
                  { r with image_data := hr.image_data }
                else r),
              history := db.history.filter (fun h =>
                !(h.image_id == iid && h.timestamp == hr.timestamp)) }) ∧
        ((db.history.filter (fun h => h.image_id == iid)).Pairwise
            (fun a b => a.timestamp ≠ b.timestamp) →
          (DatabaseManager.undo_image_edit db folder image_name).2.history.length
              + 1 = db.history.length))) := by
  constructor
  · intro h
    simp [DatabaseManager.undo_image_edit, h]
  · intro iid hiid h0
    have hbeq : (iid == 0) = false := by simp [h0]
    constructor
    · intro hnil
      simp [DatabaseManager.undo_image_edit, hiid, hbeq, hnil,
        DatabaseManager.latestHistory]
    · intro hr hlatest
      obtain ⟨hmemf, hmaxf⟩ := latestHistory_spec _ hr hlatest
      have hmem : hr ∈ db.history := List.mem_of_mem_filter hmemf
      have hiid_hr : hr.image_id = iid := by
        have := List.of_mem_filter hmemf
        simpa using this
      have hundo : DatabaseManager.undo_image_edit db folder image_name =
          (true,
            { db with
              images := db.images.map (fun r =>
                if r.folder == folder && r.name == image_name then
                  { r with image_data := hr.image_data }
                else r),
              history := db.history.filter (fun h =>
                !(h.image_id == iid && h.timestamp == hr.timestamp)) }) := by
        simp [DatabaseManager.undo_image_edit, hiid, hbeq, hlatest]
      refine ⟨hmem, hiid_hr, ?_, hundo, ?_⟩
      · intro h hh hhiid
        exact hmaxf h (List.mem_filter.mpr ⟨hh, by simp [hhiid]⟩)
      · intro hpair
        have hsing := filter_timestamp_singleton _ hr hmemf hpair
        rw [hundo]
        have hpart := length_filter_not_add db.history
          (fun h => h.image_id == iid && h.timestamp == hr.timestamp)
        have hff : db.history.filter
            (fun h => h.image_id == iid && h.timestamp == hr.timestamp) =
            (db.history.filter (fun h => h.image_id == iid)).filter
              (fun h => h.timestamp == hr.timestamp) := by
          rw [List.filter_filter]
          apply List.filter_congr
          intro x hx
          rw [Bool.and_comm]
        have hrem : (db.history.filter
            (fun h => h.image_id == iid && h.timestamp == hr.timestamp)).length
            = 1 := by
          rw [hff, hsing]
          rfl
        simp only []
        omega

/-- Counterexample for C5 as frozen: with two history snapshots of the
same image sharing one timestamp, `undo_image_edit` succeeds but the
`DELETE ... WHERE image_id = ? AND timestamp = ?` removes both rows,
not exactly the restored one: both history rows vanish. -/
theorem undo_image_edit_tie_counterexample :
    (DatabaseManager.undo_image_edit
      { folders := [],
        images := [{ id := 1, name := "a.png", folder := "f",
                     image_data := [0], download_allowed := true }],
        surveys := [],
        history := [
          { id := 1, image_id := 1, folder := "f", image_data := [1],
            timestamp := "t" },
          { id := 2, image_id := 1, folder := "f", image_data := [2],
            timestamp := "t" } ] } "f" "a.png").1 = true ∧
    (DatabaseManager.undo_image_edit
      { folders := [],
        images := [{ id := 1, name := "a.png", folder := "f",
                     image_data := [0], download_allowed := true }],
        surveys := [],
        history := [
          { id := 1, image_id := 1, folder := "f", image_data := [1],
            timestamp := "t" },
          { id := 2, image_id := 1, folder := "f", image_data := [2],
            timestamp := "t" } ] } "f" "a.png").2.history.length = 0 := by
  constructor <;> decide

/-- Concrete database for the C5 witness: one image with one history
snapshot. -/
def undoWitnessDB : DBState :=
  { folders := [],
    images := [{ id := 1, name := "a.png", folder := "f",
                 image_data := [0], download_allowed := true }],
    surveys := [],
    history := [{ id := 1, image_id := 1, folder := "f",
                  image_data := [9], timestamp := "t1" }] }

/-- Closed witness for the amended C5 at a single-snapshot database:
the undo succeeds and removes exactly one history row. -/
theorem undo_image_edit_spec_witness :
    (DatabaseManager.undo_image_edit undoWitnessDB "f" "a.png").1 = true ∧
    (DatabaseManager.undo_image_edit undoWitnessDB "f" "a.png").2.history.length
        + 1 = undoWitnessDB.history.length := by
  have H := ((undo_image_edit_spec undoWitnessDB "f" "a.png").2 1 rfl
    (by decide)).2
    { id := 1, image_id := 1, folder := "f", image_data := [9],
      timestamp := "t1" } rfl
  exact ⟨by rw [H.2.2.2.1], H.2.2.2.2 (by decide)⟩

end Gallery
